import Mathlib

/-
  Verification of the WebGL interactive grid renderer (webgl.c).

  Shallow embedding conventions:
  * C `float` values are modelled as exact rationals (ℚ).  The claims under
    study are about the layout / indexing formulas, not about IEEE rounding;
    decimal literals such as 0.005f are rendered as the exact rationals the
    source text denotes (1/200, 13/20, ...).
  * The heap block `grid_vertices` is modelled as a total function ℤ → ℚ
    (an unbounded memory), so that out-of-bounds writes are observable
    instead of being silently dropped.
  * C `char` is an integer type; strings are modelled as `List ℕ` of byte
    values (ASCII: 48 = the digit zero, 65 = capital A, ...), terminator
    excluded.
  * Fallible GL resource creation (shader program linking) is modelled by a
    boolean parameter / state field; GL buffer objects are modelled by their
    observable contents (a second memory for the device copy).
-/

-- ============================================================
-- cell_to_clip  (webgl.c)
-- ============================================================

/-- The fixed padding inset used by cell_to_clip: the literal 0.005f. -/
def pad : ℚ := 1 / 200

/-- A clip-space rectangle, the four out-parameters of cell_to_clip. -/
structure ClipRect where
  x1 : ℚ
  y1 : ℚ
  x2 : ℚ
  y2 : ℚ
deriving DecidableEq, Repr

/-- Embedding of cell_to_clip: converts (row, col) to a clip-space quad.
    Mirrors the C body verbatim (cell_w = 2/total_cols, cell_h = 2/total_rows,
    pad inset on each side, row 0 topmost). -/
def cell_to_clip (row col total_rows total_cols : ℤ) : ClipRect :=
  let cell_w : ℚ := 2 / (total_cols : ℚ)
  let cell_h : ℚ := 2 / (total_rows : ℚ)
  { x1 := -1 + (col : ℚ) * cell_w + pad
    x2 := -1 + ((col : ℚ) + 1) * cell_w - pad
    y1 := 1 - ((row : ℚ) + 1) * cell_h + pad
    y2 := 1 - (row : ℚ) * cell_h - pad }

-- ============================================================
-- init_grid default colors and vertex generation  (webgl.c)
-- ============================================================

/-- Default color selection in the init_grid loop:
    row 0 header tint (0, 0.5, 0.7); even rows (0.15, 0.15, 0.25);
    odd rows (0.2, 0.2, 0.32). -/
def default_color (row : ℤ) : ℚ × ℚ × ℚ :=
  if row = 0 then (0, 1/2, 7/10)
  else if row % 2 = 0 then (3/20, 3/20, 1/4)
  else (1/5, 1/5, 8/25)

/-- One background vertex: x, y position and r, g, b color (5 floats). -/
structure Vertex where
  x : ℚ
  y : ℚ
  r : ℚ
  g : ℚ
  b : ℚ
deriving DecidableEq, Repr

/-- The 6 vertices (two triangles) emitted for one cell by init_grid,
    in the exact order of the vdata table:
    (x1,y1) (x2,y1) (x2,y2) / (x1,y1) (x2,y2) (x1,y2). -/
def cell_quad (row col rows cols : ℤ) : List Vertex :=
  let rect := cell_to_clip row col rows cols
  let c := default_color row
  [ ⟨rect.x1, rect.y1, c.1, c.2.1, c.2.2⟩,
    ⟨rect.x2, rect.y1, c.1, c.2.1, c.2.2⟩,
    ⟨rect.x2, rect.y2, c.1, c.2.1, c.2.2⟩,
    ⟨rect.x1, rect.y1, c.1, c.2.1, c.2.2⟩,
    ⟨rect.x2, rect.y2, c.1, c.2.1, c.2.2⟩,
    ⟨rect.x1, rect.y2, c.1, c.2.1, c.2.2⟩ ]

/-- The full background vertex sequence built by the row/col double loop
    of init_grid (row-major, 6 vertices per cell). -/
def init_grid_verts (rows cols : ℕ) : List Vertex :=
  (List.range rows).flatMap fun row =>
    (List.range cols).flatMap fun col =>
      cell_quad (row : ℤ) (col : ℤ) (rows : ℤ) (cols : ℤ)

/-- The flat float image of the vertex sequence, 5 floats per vertex in
    the order x, y, r, g, b — the contents of the grid_vertices malloc. -/
def init_grid_floats (rows cols : ℕ) : List ℚ :=
  (init_grid_verts rows cols).flatMap fun v => [v.x, v.y, v.r, v.g, v.b]

-- ============================================================
-- set_cell_color  (webgl.c)
-- ============================================================

/-- One iteration of the set_cell_color loop body: writes r, g, b at
    off + 2, off + 3, off + 4 (off = base + v*5; the +2 skips x, y).
    The three stores are to distinct locations, so the pointwise if-chain
    is the exact effect of the three assignments, last store outermost. -/
def write_vertex_color (m : ℤ → ℚ) (off : ℤ) (r g b : ℚ) : ℤ → ℚ :=
  fun i => if i = off + 2 then r else if i = off + 3 then g else if i = off + 4 then b else m i

/-- The for-loop of set_cell_color, by iteration count: color_loop base
    r g b n m is the memory after the first n iterations (v = 0 .. n-1)
    have run, each writing vertex v at offset base + v*5; the write of a
    later iteration is applied after (outside) the earlier ones. -/
def color_loop (base : ℤ) (r g b : ℚ) : ℕ → (ℤ → ℚ) → (ℤ → ℚ)
  | 0, m => m
  | v + 1, m => write_vertex_color (color_loop base r g b v m) (base + (v : ℤ) * 5) r g b

/-- Embedding of the unguarded body of set_cell_color on the grid_vertices
    memory: base = (row*total_cols + col)*6*5, then for v = 0..5 write the
    three color floats of vertex v.  There is no bounds check in the source:
    the writes land wherever base points. -/
def set_cell_color (mem : ℤ → ℚ) (row col total_cols : ℤ) (r g b : ℚ) : ℤ → ℚ :=
  color_loop ((row * total_cols + col) * 6 * 5) r g b 6 mem

-- ============================================================
-- Renderer state and the state-level operations  (webgl.c globals)
-- ============================================================

/-- The module-level mutable state of webgl.c that the claims concern:
    grid_program (modelled by its existence), grid_rows / grid_cols,
    grid_vertices (existence flag + contents), grid_vertex_count,
    grid_vbo (existence flag + device-side contents). -/
structure RendererState where
  hasProgram : Bool
  gridRows : ℤ
  gridCols : ℤ
  hasVertices : Bool
  hostMem : ℤ → ℚ
  gridVertexCount : ℤ
  hasVbo : Bool
  deviceMem : ℤ → ℚ

/-- The state at module load: all GL objects null, grid_rows = grid_cols = 0,
    grid_vertices = NULL (memory contents immaterial, taken as 0). -/
def initialState : RendererState :=
  { hasProgram := false
    gridRows := 0
    gridCols := 0
    hasVertices := false
    hostMem := fun _ => 0
    gridVertexCount := 0
    hasVbo := false
    deviceMem := fun _ => 0 }

/-- Embedding of init_grid.  Faithful ordering: grid_rows / grid_cols are
    assigned before the shader-program check, so they change even on the
    failure path.  linkOk models whether create_program succeeds when the
    program does not exist yet.  On success the host block is reallocated
    and filled from the double loop, and glBufferData copies the whole
    block to the device.  Returns (C return value, new state). -/
def init_grid (s : RendererState) (linkOk : Bool) (rows cols : ℤ) : ℤ × RendererState :=
  let s1 : RendererState := { s with gridRows := rows, gridCols := cols }
  if s.hasProgram = false ∧ linkOk = false then (0, s1)
  else
    let vcount := rows * cols * 6
    let floats := vcount * 5
    let host : ℤ → ℚ := fun i =>
      if 0 ≤ i ∧ i < floats then (init_grid_floats rows.toNat cols.toNat).getD i.toNat 0
      else s.hostMem i
    (1, { s1 with
            hasProgram := true
            hasVertices := true
            hostMem := host
            gridVertexCount := vcount
            hasVbo := true
            deviceMem := fun i => if 0 ≤ i ∧ i < floats then host i else s.deviceMem i })

/-- State-level set_cell_color: returns immediately when grid_vertices is
    NULL, otherwise runs the write loop on the host memory.  The device
    copy is never touched. -/
def setCellColorOp (s : RendererState) (row col total_cols : ℤ) (r g b : ℚ) : RendererState :=
  if s.hasVertices = false then s
  else { s with hostMem := set_cell_color s.hostMem row col total_cols r g b }

/-- State-level update_grid_buffer: returns immediately when grid_vertices
    or grid_vbo is missing; otherwise glBufferSubData copies the first
    grid_vertex_count*5 floats of the host memory to the device. -/
def updateGridBufferOp (s : RendererState) : RendererState :=
  if s.hasVertices = false ∨ s.hasVbo = false then s
  else { s with deviceMem := fun i =>
          if 0 ≤ i ∧ i < s.gridVertexCount * 5 then s.hostMem i else s.deviceMem i }

-- ============================================================
-- get_cell_at  (webgl.c)
-- ============================================================

/-- C float-to-int conversion: truncation toward zero. -/
def cTrunc (q : ℚ) : ℤ := if 0 ≤ q then ⌊q⌋ else ⌈q⌉

/-- Embedding of get_cell_at: -1 when the grid shape is degenerate,
    otherwise the (int) casts of the two quotients, the range guard, and
    the row*256 + col encoding. -/
def get_cell_at (s : RendererState) (clip_x clip_y : ℚ) : ℤ :=
  if s.gridRows ≤ 0 ∨ s.gridCols ≤ 0 then -1
  else
    let cell_w : ℚ := 2 / (s.gridCols : ℚ)
    let cell_h : ℚ := 2 / (s.gridRows : ℚ)
    let col := cTrunc ((clip_x + 1) / cell_w)
    let row := cTrunc ((1 - clip_y) / cell_h)
    if 0 ≤ col ∧ col < s.gridCols ∧ 0 ≤ row ∧ row < s.gridRows then row * 256 + col
    else -1

-- ============================================================
-- Text table, char_to_index, and the text layout loop  (webgl.c)
-- ============================================================

/-- MAX_ROWS of the cell_text table. -/
def MAX_ROWS : ℤ := 256

/-- MAX_COLS of the cell_text table. -/
def MAX_COLS : ℤ := 64

/-- MAX_CELL_LEN: byte capacity of one cell string, terminator included. -/
def MAX_CELL_LEN : ℕ := 32

/-- Embedding of char_to_index on byte values: digits 48..57 map to 0..9,
    46 (period) to 10, 45 (minus) to 11, 43 (plus) to 12, 32 (space) to 13,
    65..90 (capital letters) to 14.., 97..122 (small letters) to the same
    glyphs, everything else to -1. -/
def char_to_index (c : ℕ) : ℤ :=
  if 48 ≤ c ∧ c ≤ 57 then (c : ℤ) - 48
  else if c = 46 then 10
  else if c = 45 then 11
  else if c = 43 then 12
  else if c = 32 then 13
  else if 65 ≤ c ∧ c ≤ 90 then 14 + ((c : ℤ) - 65)
  else if 97 ≤ c ∧ c ≤ 122 then 14 + ((c : ℤ) - 97)
  else -1

/-- The supported character set as the spec words it: digits, period,
    minus, plus, space, letters (either case). -/
def is_supported (c : ℕ) : Prop :=
  (48 ≤ c ∧ c ≤ 57) ∨ c = 46 ∨ c = 45 ∨ c = 43 ∨ c = 32 ∨
  (65 ≤ c ∧ c ≤ 90) ∨ (97 ≤ c ∧ c ≤ 122)

instance (c : ℕ) : Decidable (is_supported c) := by
  unfold is_supported
  infer_instance

/-- Embedding of set_cell_text: silent no-op outside the table capacity,
    otherwise strncpy with MAX_CELL_LEN - 1 = 31 bytes plus forced
    terminator, i.e. the stored string is the first 31 bytes of text. -/
def set_cell_text (tbl : ℤ → ℤ → List ℕ) (row col : ℤ) (text : List ℕ) : ℤ → ℤ → List ℕ :=
  if row < 0 ∨ MAX_ROWS ≤ row ∨ col < 0 ∨ MAX_COLS ≤ col then tbl
  else fun r c => if r = row ∧ c = col then text.take (MAX_CELL_LEN - 1) else tbl r c

/-- One glyph quad of the text batch: left/bottom corner, width, height and
    atlas index.  This abstracts the 24 floats pushed per character (the
    two textured triangles spanning x..x+w, y..y+h); the UV floats are a
    fixed function of idx and are not the object of any claim. -/
structure Glyph where
  x : ℚ
  y : ℚ
  w : ℚ
  h : ℚ
  idx : ℤ
deriving DecidableEq, Repr

/-- The per-character loop of render_text for one cell.  An unsupported
    character only advances the pen (cx += char_w * 0.85f) and emits
    nothing; a supported character emits its quad at the pen, advances,
    and breaks out of the loop when the next quad would cross x2. -/
def layout_loop (x2 char_w char_h cy : ℚ) : List ℕ → ℚ → List Glyph
  | [], _ => []
  | c :: rest, cx =>
    let ci := char_to_index c
    if ci < 0 then layout_loop x2 char_w char_h cy rest (cx + char_w * (85/100))
    else
      ⟨cx, cy, char_w, char_h, ci⟩ ::
        (if cx + char_w * (85/100) + char_w > x2 then []
         else layout_loop x2 char_w char_h cy rest (cx + char_w * (85/100)))

/-- The per-cell body of render_text: empty strings are skipped outright;
    otherwise the cell box comes from cell_to_clip, len = min(strlen, 32),
    glyph height is 65% of the cell height, width 5/7 of the height,
    the string is centered both ways, and the loop runs on the first len
    characters starting at start_x. -/
def cell_layout (rows cols row col : ℤ) (str : List ℕ) : List Glyph :=
  if str = [] then []
  else
    let rect := cell_to_clip row col rows cols
    let cw := rect.x2 - rect.x1
    let ch := rect.y2 - rect.y1
    let len := min str.length MAX_CELL_LEN
    let char_h := ch * (65/100)
    let char_w := char_h * (5/7)
    let total_w := (len : ℚ) * char_w * (85/100)
    let start_x := rect.x1 + (cw - total_w) * (1/2)
    let start_y := rect.y1 + (ch - char_h) * (1/2)
    layout_loop rect.x2 char_w char_h start_y (str.take len) start_x

-- ============================================================
-- Cursor  (webgl.c)
-- ============================================================

/-- The four cursor globals set by set_cursor. -/
structure CursorState where
  row : ℤ
  col : ℤ
  pos : ℤ
  visible : Bool
deriving DecidableEq, Repr

/-- The cursor bar quad: left edge, bottom edge, width, height (the six
    vertices of render_cursor span x..x+w, y..y+h in white). -/
structure Bar where
  x : ℚ
  y : ℚ
  w : ℚ
  h : ℚ
deriving DecidableEq, Repr

/-- Embedding of render_cursor: nothing is drawn when the cursor is hidden,
    has a negative coordinate, or the grid program is missing.  Otherwise
    the cell text layout values are recomputed from the full string length
    (no MAX_CELL_LEN clamp here, unlike render_text) and the bar is placed
    at start_x + cursor_pos * char_w * 0.85f with width char_w * 0.15f and
    height char_h. -/
def render_cursor (hasProgram : Bool) (rows cols : ℤ) (tbl : ℤ → ℤ → List ℕ)
    (cur : CursorState) : Option Bar :=
  if cur.visible = false ∨ cur.row < 0 ∨ cur.col < 0 then none
  else if hasProgram = false then none
  else
    let rect := cell_to_clip cur.row cur.col rows cols
    let cw := rect.x2 - rect.x1
    let ch := rect.y2 - rect.y1
    let str := tbl cur.row cur.col
    let len : ℤ := str.length
    let char_h := ch * (65/100)
    let char_w := char_h * (5/7)
    let total_w := (len : ℚ) * char_w * (85/100)
    let start_x := rect.x1 + (cw - total_w) * (1/2)
    let start_y := rect.y1 + (ch - char_h) * (1/2)
    let cx := start_x + (cur.pos : ℚ) * char_w * (85/100)
    let bar_w := char_w * (15/100)
    some { x := cx, y := start_y, w := bar_w, h := char_h }

-- ============================================================
-- Concrete states used as counterexample / witness inputs
-- ============================================================

/-- A 1 by 1 grid state, used as concrete input below. -/
def oneOneState : RendererState :=
  { hasProgram := true
    gridRows := 1
    gridCols := 1
    hasVertices := true
    hostMem := fun _ => 0
    gridVertexCount := 6
    hasVbo := true
    deviceMem := fun _ => 0 }

/-- A concrete 2 by 2 initialized-grid state with zeroed buffers, used as
    witness input below. -/
def twoTwoState : RendererState :=
  { hasProgram := true
    gridRows := 2
    gridCols := 2
    hasVertices := true
    hostMem := fun _ => 0
    gridVertexCount := 24
    hasVbo := true
    deviceMem := fun _ => 0 }

/-- The cell-text table of the cursor scenario: the string 1000 (bytes
    49, 48, 48, 48) stored at cell (2, 3), everything else empty. -/
def demoTable : ℤ → ℤ → List ℕ :=
  fun r c => if r = 2 ∧ c = 3 then [49, 48, 48, 48] else []

/-- The cursor scenario state: setCursor(2, 3, 4, true). -/
def demoCursor : CursorState := { row := 2, col := 3, pos := 4, visible := true }

-- ============================================================
-- Helper lemmas about the set_cell_color write loop
-- ============================================================

lemma color_loop_apply_outside (base : ℤ) (r g b : ℚ) (n : ℕ) (m : ℤ → ℚ) (i : ℤ)
    (h : i < base ∨ base + (n : ℤ) * 5 ≤ i) :
    color_loop base r g b n m i = m i := by
  induction n with
  | zero => rfl
  | succ n ih =>
    simp only [color_loop, write_vertex_color]
    rw [if_neg (by omega), if_neg (by omega), if_neg (by omega)]
    exact ih (by omega)

lemma color_loop_apply_r (base : ℤ) (r g b : ℚ) (n : ℕ) (m : ℤ → ℚ) (v : ℕ) (hv : v < n) :
    color_loop base r g b n m (base + (v : ℤ) * 5 + 2) = r := by
  induction n with
  | zero => omega
  | succ n ih =>
    simp only [color_loop, write_vertex_color]
    by_cases hvn : v = n
    · subst hvn
      rw [if_pos (by omega)]
    · rw [if_neg (by omega), if_neg (by omega), if_neg (by omega)]
      exact ih (by omega)

lemma color_loop_apply_g (base : ℤ) (r g b : ℚ) (n : ℕ) (m : ℤ → ℚ) (v : ℕ) (hv : v < n) :
    color_loop base r g b n m (base + (v : ℤ) * 5 + 3) = g := by
  induction n with
  | zero => omega
  | succ n ih =>
    simp only [color_loop, write_vertex_color]
    by_cases hvn : v = n
    · subst hvn
      rw [if_neg (by omega), if_pos (by omega)]
    · rw [if_neg (by omega), if_neg (by omega), if_neg (by omega)]
      exact ih (by omega)

lemma color_loop_apply_b (base : ℤ) (r g b : ℚ) (n : ℕ) (m : ℤ → ℚ) (v : ℕ) (hv : v < n) :
    color_loop base r g b n m (base + (v : ℤ) * 5 + 4) = b := by
  induction n with
  | zero => omega
  | succ n ih =>
    simp only [color_loop, write_vertex_color]
    by_cases hvn : v = n
    · subst hvn
      rw [if_neg (by omega), if_neg (by omega), if_pos (by omega)]
    · rw [if_neg (by omega), if_neg (by omega), if_neg (by omega)]
      exact ih (by omega)

lemma color_loop_apply_x (base : ℤ) (r g b : ℚ) (n : ℕ) (m : ℤ → ℚ) (v : ℕ) (hv : v < n) :
    color_loop base r g b n m (base + (v : ℤ) * 5) = m (base + (v : ℤ) * 5) := by
  induction n with
  | zero => omega
  | succ n ih =>
    simp only [color_loop, write_vertex_color]
    rw [if_neg (by omega), if_neg (by omega), if_neg (by omega)]
    by_cases hvn : v = n
    · subst hvn
      exact color_loop_apply_outside _ _ _ _ _ _ _ (by omega)
    · exact ih (by omega)

lemma color_loop_apply_y (base : ℤ) (r g b : ℚ) (n : ℕ) (m : ℤ → ℚ) (v : ℕ) (hv : v < n) :
    color_loop base r g b n m (base + (v : ℤ) * 5 + 1) = m (base + (v : ℤ) * 5 + 1) := by
  induction n with
  | zero => omega
  | succ n ih =>
    simp only [color_loop, write_vertex_color]
    rw [if_neg (by omega), if_neg (by omega), if_neg (by omega)]
    by_cases hvn : v = n
    · subst hvn
      exact color_loop_apply_outside _ _ _ _ _ _ _ (by omega)
    · exact ih (by omega)

-- ============================================================
-- C1
-- ============================================================

/-- C1 (code bug): the claim says an out-of-bounds set_cell_color call is
    rejected and writes nothing.  The source body has no bounds check: with
    a 2 by 2 grid (vertex array indices 0..119) the call
    set_cell_color(2, 0, 2, 1, 0, 0) — row 2 is outside the grid — computes
    base = (2*2 + 0)*30 = 120 and stores the red component at index 122,
    outside the allocated array: an out-of-bounds write occurs.  Starting
    from an all-zero memory, index 122 changes from 0 to 1. -/
theorem set_cell_color_out_of_bounds_write :
    set_cell_color (fun _ => (0 : ℚ)) 2 0 2 1 0 0 122 = 1 ∧
    (fun _ => (0 : ℚ)) 122 = 0 ∧
    ¬ ((0 : ℤ) ≤ 122 ∧ (122 : ℤ) < 2 * 2 * 6 * 5) := by
  refine ⟨by decide, rfl, by decide⟩

-- ============================================================
-- C10
-- ============================================================

/-- C10: in any state where grid_vertices is NULL and the grid shape is
    0 by 0 (the module-load state, before any successful init_grid),
    set_cell_color and update_grid_buffer return immediately leaving the
    state unchanged, and get_cell_at answers -1 for every input point. -/
theorem pre_init_operations_harmless (s : RendererState)
    (h1 : s.hasVertices = false) (h2 : s.gridRows = 0) (h3 : s.gridCols = 0) :
    (∀ row col tc : ℤ, ∀ r g b : ℚ, setCellColorOp s row col tc r g b = s) ∧
    updateGridBufferOp s = s ∧
    (∀ x y : ℚ, get_cell_at s x y = -1) := by
  refine ⟨?_, ?_, ?_⟩
  · intro row col tc r g b
    simp [setCellColorOp, h1]
  · simp [updateGridBufferOp, h1]
  · intro x y
    simp [get_cell_at, h2]

/-- Witness for C10 at the module-load state. -/
theorem pre_init_operations_harmless_witness :
    initialState.hasVertices = false ∧ initialState.gridRows = 0 ∧
    initialState.gridCols = 0 ∧
    ((∀ row col tc : ℤ, ∀ r g b : ℚ, setCellColorOp initialState row col tc r g b = initialState) ∧
     updateGridBufferOp initialState = initialState ∧
     (∀ x y : ℚ, get_cell_at initialState x y = -1)) :=
  ⟨rfl, rfl, rfl, pre_init_operations_harmless initialState rfl rfl rfl⟩

-- ============================================================
-- C3
-- ============================================================

/-- C3 counterexample: init_grid(300, 100) succeeds (returns 1) and stores
    grid_rows = 300 and grid_cols = 100, violating the claimed bounds
    rows <= 256 and cols <= 64 — no validation happens in the source. -/
theorem init_grid_accepts_out_of_bounds_shape :
    (init_grid initialState true 300 100).1 = 1 ∧
    (init_grid initialState true 300 100).2.gridRows = 300 ∧
    (init_grid initialState true 300 100).2.gridCols = 100 ∧
    ¬ ((300 : ℤ) ≤ 256) ∧ ¬ ((100 : ℤ) ≤ 64) :=
  ⟨rfl, rfl, rfl, by decide, by decide⟩

/-- C3 amended: a successful init_grid(rows, cols) stores exactly the
    passed shape, and success depends only on shader-program availability;
    init_grid itself performs no bounds validation, so the invariant
    rows, cols > 0, rows <= 256, cols <= 64 is a caller precondition, not
    something init_grid enforces. -/
theorem init_grid_stores_passed_shape (s : RendererState) (linkOk : Bool) (rows cols : ℤ) :
    ((init_grid s linkOk rows cols).1 = 1 ↔ (s.hasProgram = true ∨ linkOk = true)) ∧
    ((init_grid s linkOk rows cols).1 = 1 →
      (init_grid s linkOk rows cols).2.gridRows = rows ∧
      (init_grid s linkOk rows cols).2.gridCols = cols) := by
  cases hp : s.hasProgram <;> cases hl : linkOk <;>
    simp [init_grid, hp, hl]

/-- Witness for C3 (amended) at a concrete successful call. -/
theorem init_grid_stores_passed_shape_witness :
    ((init_grid initialState true 8 5).1 = 1 ↔
      (initialState.hasProgram = true ∨ (true : Bool) = true)) ∧
    ((init_grid initialState true 8 5).1 = 1 →
      (init_grid initialState true 8 5).2.gridRows = 8 ∧
      (init_grid initialState true 8 5).2.gridCols = 5) :=
  init_grid_stores_passed_shape initialState true 8 5

-- ============================================================
-- C2
-- ============================================================


/-- C2 counterexample: the claim demands get_cell_at return -1 for every
    point with clipX < -1.  The C cast truncates toward zero rather than
    flooring: on a 1 by 1 grid (cellW = 2) the point clipX = -3/2 < -1
    gives (int)((-3/2 + 1)/2) = (int)(-1/4) = 0, an in-range column, so
    get_cell_at returns 0*256 + 0 = 0, not -1. -/
theorem get_cell_at_truncation_counterexample :
    ((-3/2 : ℚ) < -1) ∧
    0 < oneOneState.gridRows ∧ 0 < oneOneState.gridCols ∧
    get_cell_at oneOneState (-3/2) 0 = 0 ∧
    get_cell_at oneOneState (-3/2) 0 ≠ -1 := by
  have h : get_cell_at oneOneState (-3/2) 0 = 0 := by
    norm_num [get_cell_at, oneOneState, cTrunc]
    rw [show ⌈(-(1/4) : ℚ)⌉ = 0 from by norm_num]
    norm_num
  refine ⟨by norm_num, by decide, by decide, h, by rw [h]; decide⟩


/-- C2 amended: get_cell_at computes col and row by C truncation toward
    zero of (clipX+1)/cellW and (1-clipY)/cellH (not by floor), returns -1
    whenever the resulting pair lies outside the grid bounds, and otherwise
    row*256 + col.  The blanket guarantee for clipX < -1 / clipY > 1 holds
    only from one cell width/height beyond the edge on: clipX <= -1 - cellW
    or clipY >= 1 + cellH force -1 (points with -1 - cellW < clipX < -1
    truncate to column 0, as the counterexample exhibits). -/
theorem get_cell_at_formula (s : RendererState) (x y : ℚ)
    (hr : 0 < s.gridRows) (hc : 0 < s.gridCols) :
    (get_cell_at s x y =
      (if 0 ≤ cTrunc ((x + 1) / (2 / (s.gridCols : ℚ))) ∧
          cTrunc ((x + 1) / (2 / (s.gridCols : ℚ))) < s.gridCols ∧
          0 ≤ cTrunc ((1 - y) / (2 / (s.gridRows : ℚ))) ∧
          cTrunc ((1 - y) / (2 / (s.gridRows : ℚ))) < s.gridRows
       then cTrunc ((1 - y) / (2 / (s.gridRows : ℚ))) * 256 +
            cTrunc ((x + 1) / (2 / (s.gridCols : ℚ)))
       else -1)) ∧
    (x ≤ -1 - 2 / (s.gridCols : ℚ) → get_cell_at s x y = -1) ∧
    (1 + 2 / (s.gridRows : ℚ) ≤ y → get_cell_at s x y = -1) := by
  have hcq : (0 : ℚ) < (s.gridCols : ℚ) := by exact_mod_cast hc
  have hrq : (0 : ℚ) < (s.gridRows : ℚ) := by exact_mod_cast hr
  have hwq : (0 : ℚ) < 2 / (s.gridCols : ℚ) := by positivity
  have hhq : (0 : ℚ) < 2 / (s.gridRows : ℚ) := by positivity
  have hguard : ¬ (s.gridRows ≤ 0 ∨ s.gridCols ≤ 0) := by omega
  refine ⟨?_, ?_, ?_⟩
  · simp only [get_cell_at, if_neg hguard]
  · intro hx
    have h1 : (x + 1) / (2 / (s.gridCols : ℚ)) ≤ -1 := by
      rw [div_le_iff₀ hwq]
      linarith
    have h2 : cTrunc ((x + 1) / (2 / (s.gridCols : ℚ))) ≤ -1 := by
      rw [cTrunc]
      split_ifs with h0
      · exfalso
        linarith
      · rw [Int.ceil_le]
        push_cast
        linarith
    simp only [get_cell_at, if_neg hguard]
    rw [if_neg (by omega)]
  · intro hy
    have h1 : (1 - y) / (2 / (s.gridRows : ℚ)) ≤ -1 := by
      rw [div_le_iff₀ hhq]
      linarith
    have h2 : cTrunc ((1 - y) / (2 / (s.gridRows : ℚ))) ≤ -1 := by
      rw [cTrunc]
      split_ifs with h0
      · exfalso
        linarith
      · rw [Int.ceil_le]
        push_cast
        linarith
    simp only [get_cell_at, if_neg hguard]
    rw [if_neg (by omega)]

/-- Witness for C2 (amended) on the 1 by 1 grid at the origin. -/
theorem get_cell_at_formula_witness :
    0 < oneOneState.gridRows ∧ 0 < oneOneState.gridCols ∧
    ((get_cell_at oneOneState 0 0 =
      (if 0 ≤ cTrunc ((0 + 1) / (2 / (oneOneState.gridCols : ℚ))) ∧
          cTrunc ((0 + 1) / (2 / (oneOneState.gridCols : ℚ))) < oneOneState.gridCols ∧
          0 ≤ cTrunc ((1 - 0) / (2 / (oneOneState.gridRows : ℚ))) ∧
          cTrunc ((1 - 0) / (2 / (oneOneState.gridRows : ℚ))) < oneOneState.gridRows
       then cTrunc ((1 - 0) / (2 / (oneOneState.gridRows : ℚ))) * 256 +
            cTrunc ((0 + 1) / (2 / (oneOneState.gridCols : ℚ)))
       else -1)) ∧
     ((0 : ℚ) ≤ -1 - 2 / (oneOneState.gridCols : ℚ) → get_cell_at oneOneState 0 0 = -1) ∧
     (1 + 2 / (oneOneState.gridRows : ℚ) ≤ (0 : ℚ) → get_cell_at oneOneState 0 0 = -1)) :=
  ⟨by decide, by decide, get_cell_at_formula oneOneState 0 0 (by decide) (by decide)⟩

-- ============================================================
-- C9
-- ============================================================

/-- C9: feeding the center of the cell_to_clip quad of any in-bounds cell
    back through get_cell_at recovers exactly that cell, encoded as
    row*256 + col (the pad insets cancel at the center, truncation of
    col + 1/2 and row + 1/2 lands on the cell indices, and the range guard
    passes). -/
theorem hit_test_inverts_cell_center (s : RendererState) (row col : ℤ)
    (hr : 0 < s.gridRows) (hc : 0 < s.gridCols)
    (h1 : 0 ≤ row) (h2 : row < s.gridRows) (h3 : 0 ≤ col) (h4 : col < s.gridCols) :
    get_cell_at s
      (((cell_to_clip row col s.gridRows s.gridCols).x1 +
        (cell_to_clip row col s.gridRows s.gridCols).x2) / 2)
      (((cell_to_clip row col s.gridRows s.gridCols).y1 +
        (cell_to_clip row col s.gridRows s.gridCols).y2) / 2) =
      row * 256 + col := by
  have hcq : (0 : ℚ) < (s.gridCols : ℚ) := by exact_mod_cast hc
  have hrq : (0 : ℚ) < (s.gridRows : ℚ) := by exact_mod_cast hr
  have hc0 : (s.gridCols : ℚ) ≠ 0 := ne_of_gt hcq
  have hr0 : (s.gridRows : ℚ) ≠ 0 := ne_of_gt hrq
  have hx : (((cell_to_clip row col s.gridRows s.gridCols).x1 +
      (cell_to_clip row col s.gridRows s.gridCols).x2) / 2 + 1) / (2 / (s.gridCols : ℚ)) =
      (col : ℚ) + 1/2 := by
    simp only [cell_to_clip]
    field_simp
    ring
  have hy : (1 - ((cell_to_clip row col s.gridRows s.gridCols).y1 +
      (cell_to_clip row col s.gridRows s.gridCols).y2) / 2) / (2 / (s.gridRows : ℚ)) =
      (row : ℚ) + 1/2 := by
    simp only [cell_to_clip]
    field_simp
    ring
  have hct : ∀ n : ℤ, 0 ≤ n → cTrunc ((n : ℚ) + 1/2) = n := by
    intro n hn
    have hn0 : (0 : ℚ) ≤ (n : ℚ) := by exact_mod_cast hn
    rw [cTrunc, if_pos (by linarith), Int.floor_int_add]
    norm_num
  simp only [get_cell_at, if_neg (show ¬ (s.gridRows ≤ 0 ∨ s.gridCols ≤ 0) by omega)]
  rw [hx, hy, hct col h3, hct row h1, if_pos ⟨h3, h4, h1, h2⟩]

/-- Witness for C9 on the 1 by 1 grid, cell (0, 0). -/
theorem hit_test_inverts_cell_center_witness :
    0 < oneOneState.gridRows ∧ 0 < oneOneState.gridCols ∧
    get_cell_at oneOneState
      (((cell_to_clip 0 0 oneOneState.gridRows oneOneState.gridCols).x1 +
        (cell_to_clip 0 0 oneOneState.gridRows oneOneState.gridCols).x2) / 2)
      (((cell_to_clip 0 0 oneOneState.gridRows oneOneState.gridCols).y1 +
        (cell_to_clip 0 0 oneOneState.gridRows oneOneState.gridCols).y2) / 2) =
      0 * 256 + 0 :=
  ⟨by decide, by decide,
    hit_test_inverts_cell_center oneOneState 0 0 (by decide) (by decide)
      (by decide) (by decide) (by decide) (by decide)⟩

-- ============================================================
-- C5
-- ============================================================

/-- C5: for an in-bounds cell of an initialized grid, set_cell_color
    rewrites exactly the three color floats of each of the 6 vertices at
    base = (row*cols + col)*30 in the host array (that region lies inside
    the array), leaves the two position floats of those vertices and every
    index outside the 30-float region unchanged, and does not touch the
    device copy; a following update_grid_buffer uploads the whole host
    array, so the device then shows the new color at the targeted cell and
    the old host contents everywhere else. -/
theorem set_cell_color_targets_exactly_one_cell (s : RendererState) (row col : ℤ)
    (r g b : ℚ)
    (hvert : s.hasVertices = true) (hvbo : s.hasVbo = true)
    (h1 : 0 ≤ row) (h2 : row < s.gridRows) (h3 : 0 ≤ col) (h4 : col < s.gridCols)
    (hcount : s.gridVertexCount = s.gridRows * s.gridCols * 6) :
    (0 ≤ (row * s.gridCols + col) * 6 * 5 ∧
      (row * s.gridCols + col) * 6 * 5 + 30 ≤ s.gridVertexCount * 5) ∧
    (∀ v : ℕ, v < 6 →
      (setCellColorOp s row col s.gridCols r g b).hostMem
          ((row * s.gridCols + col) * 6 * 5 + (v : ℤ) * 5 + 2) = r ∧
      (setCellColorOp s row col s.gridCols r g b).hostMem
          ((row * s.gridCols + col) * 6 * 5 + (v : ℤ) * 5 + 3) = g ∧
      (setCellColorOp s row col s.gridCols r g b).hostMem
          ((row * s.gridCols + col) * 6 * 5 + (v : ℤ) * 5 + 4) = b) ∧
    (∀ v : ℕ, v < 6 →
      (setCellColorOp s row col s.gridCols r g b).hostMem
          ((row * s.gridCols + col) * 6 * 5 + (v : ℤ) * 5) =
        s.hostMem ((row * s.gridCols + col) * 6 * 5 + (v : ℤ) * 5) ∧
      (setCellColorOp s row col s.gridCols r g b).hostMem
          ((row * s.gridCols + col) * 6 * 5 + (v : ℤ) * 5 + 1) =
        s.hostMem ((row * s.gridCols + col) * 6 * 5 + (v : ℤ) * 5 + 1)) ∧
    (∀ i : ℤ, i < (row * s.gridCols + col) * 6 * 5 ∨
        (row * s.gridCols + col) * 6 * 5 + 30 ≤ i →
      (setCellColorOp s row col s.gridCols r g b).hostMem i = s.hostMem i) ∧
    (setCellColorOp s row col s.gridCols r g b).deviceMem = s.deviceMem ∧
    (∀ i : ℤ, 0 ≤ i → i < s.gridVertexCount * 5 →
      (updateGridBufferOp (setCellColorOp s row col s.gridCols r g b)).deviceMem i =
        (setCellColorOp s row col s.gridCols r g b).hostMem i) ∧
    (∀ i : ℤ, 0 ≤ i → i < s.gridVertexCount * 5 →
      (i < (row * s.gridCols + col) * 6 * 5 ∨
        (row * s.gridCols + col) * 6 * 5 + 30 ≤ i) →
      (updateGridBufferOp (setCellColorOp s row col s.gridCols r g b)).deviceMem i =
        s.hostMem i) := by
  have hs1 : setCellColorOp s row col s.gridCols r g b =
      { s with hostMem := set_cell_color s.hostMem row col s.gridCols r g b } := by
    rw [setCellColorOp, if_neg]
    rw [hvert]
    simp
  have houtside : ∀ i : ℤ, i < (row * s.gridCols + col) * 6 * 5 ∨
      (row * s.gridCols + col) * 6 * 5 + 30 ≤ i →
      set_cell_color s.hostMem row col s.gridCols r g b i = s.hostMem i := by
    intro i hi
    rw [set_cell_color]
    exact color_loop_apply_outside _ _ _ _ _ _ _ (by push_cast; omega)
  refine ⟨?_, ?_, ?_, ?_, ?_, ?_, ?_⟩
  · constructor
    · nlinarith
    · rw [hcount]
      nlinarith
  · intro v hv
    rw [hs1]
    refine ⟨?_, ?_, ?_⟩
    · exact color_loop_apply_r _ _ _ _ _ _ _ hv
    · exact color_loop_apply_g _ _ _ _ _ _ _ hv
    · exact color_loop_apply_b _ _ _ _ _ _ _ hv
  · intro v hv
    rw [hs1]
    exact ⟨color_loop_apply_x _ _ _ _ _ _ _ hv, color_loop_apply_y _ _ _ _ _ _ _ hv⟩
  · intro i hi
    rw [hs1]
    exact houtside i hi
  · rw [hs1]
  · intro i hi1 hi2
    rw [hs1]
    rw [updateGridBufferOp, if_neg]
    · simp only
      rw [if_pos ⟨hi1, hi2⟩]
    · rw [hvert, hvbo]
      simp
  · intro i hi1 hi2 hi3
    rw [hs1]
    rw [updateGridBufferOp, if_neg]
    · simp only
      rw [if_pos ⟨hi1, hi2⟩]
      exact houtside i hi3
    · rw [hvert, hvbo]
      simp


/-- Witness for C5 at cell (1, 1) of the 2 by 2 state. -/
theorem set_cell_color_targets_exactly_one_cell_witness :
    twoTwoState.hasVertices = true ∧ twoTwoState.hasVbo = true ∧
    (0 ≤ (1 : ℤ)) ∧ (1 : ℤ) < twoTwoState.gridRows ∧
    (0 ≤ (1 : ℤ)) ∧ (1 : ℤ) < twoTwoState.gridCols ∧
    twoTwoState.gridVertexCount = twoTwoState.gridRows * twoTwoState.gridCols * 6 ∧
    ((0 ≤ (1 * twoTwoState.gridCols + 1) * 6 * 5 ∧
      (1 * twoTwoState.gridCols + 1) * 6 * 5 + 30 ≤ twoTwoState.gridVertexCount * 5) ∧
    (∀ v : ℕ, v < 6 →
      (setCellColorOp twoTwoState 1 1 twoTwoState.gridCols 1 0 0).hostMem
          ((1 * twoTwoState.gridCols + 1) * 6 * 5 + (v : ℤ) * 5 + 2) = 1 ∧
      (setCellColorOp twoTwoState 1 1 twoTwoState.gridCols 1 0 0).hostMem
          ((1 * twoTwoState.gridCols + 1) * 6 * 5 + (v : ℤ) * 5 + 3) = 0 ∧
      (setCellColorOp twoTwoState 1 1 twoTwoState.gridCols 1 0 0).hostMem
          ((1 * twoTwoState.gridCols + 1) * 6 * 5 + (v : ℤ) * 5 + 4) = 0) ∧
    (∀ v : ℕ, v < 6 →
      (setCellColorOp twoTwoState 1 1 twoTwoState.gridCols 1 0 0).hostMem
          ((1 * twoTwoState.gridCols + 1) * 6 * 5 + (v : ℤ) * 5) =
        twoTwoState.hostMem ((1 * twoTwoState.gridCols + 1) * 6 * 5 + (v : ℤ) * 5) ∧
      (setCellColorOp twoTwoState 1 1 twoTwoState.gridCols 1 0 0).hostMem
          ((1 * twoTwoState.gridCols + 1) * 6 * 5 + (v : ℤ) * 5 + 1) =
        twoTwoState.hostMem ((1 * twoTwoState.gridCols + 1) * 6 * 5 + (v : ℤ) * 5 + 1)) ∧
    (∀ i : ℤ, i < (1 * twoTwoState.gridCols + 1) * 6 * 5 ∨
        (1 * twoTwoState.gridCols + 1) * 6 * 5 + 30 ≤ i →
      (setCellColorOp twoTwoState 1 1 twoTwoState.gridCols 1 0 0).hostMem i =
        twoTwoState.hostMem i) ∧
    (setCellColorOp twoTwoState 1 1 twoTwoState.gridCols 1 0 0).deviceMem =
      twoTwoState.deviceMem ∧
    (∀ i : ℤ, 0 ≤ i → i < twoTwoState.gridVertexCount * 5 →
      (updateGridBufferOp (setCellColorOp twoTwoState 1 1 twoTwoState.gridCols 1 0 0)).deviceMem i =
        (setCellColorOp twoTwoState 1 1 twoTwoState.gridCols 1 0 0).hostMem i) ∧
    (∀ i : ℤ, 0 ≤ i → i < twoTwoState.gridVertexCount * 5 →
      (i < (1 * twoTwoState.gridCols + 1) * 6 * 5 ∨
        (1 * twoTwoState.gridCols + 1) * 6 * 5 + 30 ≤ i) →
      (updateGridBufferOp (setCellColorOp twoTwoState 1 1 twoTwoState.gridCols 1 0 0)).deviceMem i =
        twoTwoState.hostMem i)) :=
  ⟨rfl, rfl, by decide, by decide, by decide, by decide, rfl,
    set_cell_color_targets_exactly_one_cell twoTwoState 1 1 1 0 0 rfl rfl
      (by decide) (by decide) (by decide) (by decide) rfl⟩


-- ============================================================
-- Index arithmetic for flatMap over List.range with uniform block size
-- ============================================================

lemma range_flatMap_length {α : Type} (f : ℕ → List α) (k n : ℕ)
    (h : ∀ i, (f i).length = k) :
    ((List.range n).flatMap f).length = n * k := by
  induction n with
  | zero => simp
  | succ n ih =>
    rw [List.range_succ, List.flatMap_append, List.length_append, ih]
    simp only [List.flatMap_cons, List.flatMap_nil, List.append_nil]
    rw [h n]
    ring

lemma range_flatMap_getElem {α : Type} (f : ℕ → List α) (k n : ℕ)
    (h : ∀ i, (f i).length = k) (i j : ℕ) (hi : i < n) (hj : j < k) :
    ((List.range n).flatMap f)[i * k + j]? = (f i)[j]? := by
  induction n with
  | zero => omega
  | succ n ih =>
    rw [List.range_succ, List.flatMap_append]
    have hlen : ((List.range n).flatMap f).length = n * k := range_flatMap_length f k n h
    rcases Nat.lt_or_ge i n with hin | hin
    · have hb : i * k + j < ((List.range n).flatMap f).length := by
        rw [hlen]
        have h1 : i * k + j < (i + 1) * k := by
          have : i * k + j < i * k + k := by omega
          calc i * k + j < i * k + k := this
            _ = (i + 1) * k := by ring
        have h2 : (i + 1) * k ≤ n * k := mul_le_mul_right' (by omega) k
        omega
      rw [List.getElem?_append_left hb]
      exact ih hin
    · have hin2 : i = n := by omega
      subst hin2
      rw [List.getElem?_append_right (by rw [hlen]; exact Nat.le_add_right _ _)]
      rw [hlen]
      rw [show i * k + j - i * k = j from by omega]
      simp only [List.flatMap_cons, List.flatMap_nil, List.append_nil]

-- ============================================================
-- C4
-- ============================================================

/-- C4: init_grid produces exactly rows*cols*6 vertices laid out in
    row-major order with 6 vertices per cell; each cell quad comes from
    cell_to_clip with the claimed cellW/cellH/pad formulas; neighbouring
    quads are separated by exactly 2*pad horizontally and vertically and
    the outermost quad edges sit pad inside the [-1,1] square (so no gap
    exceeds 2*pad); and all 6 vertices of a cell carry the default color:
    the header tint on row 0 and one of the two body tints by row parity
    elsewhere. -/
theorem init_grid_geometry_and_colors (rows cols : ℕ) (hr : 0 < rows) (hc : 0 < cols) :
    (init_grid_verts rows cols).length = rows * cols * 6 ∧
    (∀ row col v : ℕ, row < rows → col < cols → v < 6 →
      (init_grid_verts rows cols)[(row * cols + col) * 6 + v]? =
        (cell_quad (row : ℤ) (col : ℤ) (rows : ℤ) (cols : ℤ))[v]?) ∧
    (∀ row col : ℤ,
      cell_to_clip row col (rows : ℤ) (cols : ℤ) =
        { x1 := -1 + (col : ℚ) * (2 / ((cols : ℤ) : ℚ)) + pad
          y1 := 1 - ((row : ℚ) + 1) * (2 / ((rows : ℤ) : ℚ)) + pad
          x2 := -1 + ((col : ℚ) + 1) * (2 / ((cols : ℤ) : ℚ)) - pad
          y2 := 1 - (row : ℚ) * (2 / ((rows : ℤ) : ℚ)) - pad }) ∧
    (∀ row col : ℤ,
      (cell_to_clip row (col + 1) (rows : ℤ) (cols : ℤ)).x1 -
        (cell_to_clip row col (rows : ℤ) (cols : ℤ)).x2 = 2 * pad ∧
      (cell_to_clip row col (rows : ℤ) (cols : ℤ)).y1 -
        (cell_to_clip (row + 1) col (rows : ℤ) (cols : ℤ)).y2 = 2 * pad) ∧
    (∀ row col : ℤ,
      (cell_to_clip row 0 (rows : ℤ) (cols : ℤ)).x1 = -1 + pad ∧
      (cell_to_clip row ((cols : ℤ) - 1) (rows : ℤ) (cols : ℤ)).x2 = 1 - pad ∧
      (cell_to_clip 0 col (rows : ℤ) (cols : ℤ)).y2 = 1 - pad ∧
      (cell_to_clip ((rows : ℤ) - 1) col (rows : ℤ) (cols : ℤ)).y1 = -1 + pad) ∧
    (∀ row col : ℤ, ∀ vert ∈ cell_quad row col (rows : ℤ) (cols : ℤ),
      vert.r = (default_color row).1 ∧ vert.g = (default_color row).2.1 ∧
      vert.b = (default_color row).2.2) ∧
    default_color 0 = (0, 1/2, 7/10) ∧
    (∀ row : ℤ, row ≠ 0 → row % 2 = 0 → default_color row = (3/20, 3/20, 1/4)) ∧
    (∀ row : ℤ, row ≠ 0 → row % 2 ≠ 0 → default_color row = (1/5, 1/5, 8/25)) := by
  have hquad : ∀ a b : ℤ, (cell_quad a b (rows : ℤ) (cols : ℤ)).length = 6 := by
    intro a b
    simp [cell_quad]
  have hcq : (0 : ℚ) < ((cols : ℤ) : ℚ) := by exact_mod_cast hc
  have hrq : (0 : ℚ) < ((rows : ℤ) : ℚ) := by exact_mod_cast hr
  have hc0 : ((cols : ℤ) : ℚ) ≠ 0 := ne_of_gt hcq
  have hr0 : ((rows : ℤ) : ℚ) ≠ 0 := ne_of_gt hrq
  refine ⟨?_, ?_, ?_, ?_, ?_, ?_, ?_, ?_, ?_⟩
  · rw [init_grid_verts]
    rw [range_flatMap_length _ (cols * 6) rows
      (fun i => range_flatMap_length _ 6 cols (fun j => hquad _ _))]
    ring
  · intro row col v hrow hcol hv
    have hinner : ∀ i : ℕ, ((List.range cols).flatMap fun c =>
        cell_quad (i : ℤ) (c : ℤ) (rows : ℤ) (cols : ℤ)).length = cols * 6 :=
      fun i => range_flatMap_length _ 6 cols (fun j => hquad _ _)
    have hb : col * 6 + v < cols * 6 := by
      have h1 : col * 6 + v < (col + 1) * 6 := by omega
      have h2 : (col + 1) * 6 ≤ cols * 6 := mul_le_mul_right' (by omega) 6
      omega
    have e1 := range_flatMap_getElem
      (fun r => (List.range cols).flatMap fun c =>
        cell_quad (r : ℤ) (c : ℤ) (rows : ℤ) (cols : ℤ))
      (cols * 6) rows hinner row (col * 6 + v) hrow hb
    have e2 := range_flatMap_getElem
      (fun c => cell_quad (row : ℤ) (c : ℤ) (rows : ℤ) (cols : ℤ)) 6 cols
      (fun j => hquad _ _) col v hcol hv
    rw [init_grid_verts]
    rw [show (row * cols + col) * 6 + v = row * (cols * 6) + (col * 6 + v) from by ring]
    exact e1.trans e2
  · intro row col
    simp [cell_to_clip]
  · intro row col
    constructor
    · simp only [cell_to_clip]
      push_cast
      try ring
    · simp only [cell_to_clip]
      push_cast
      try ring
  · intro row col
    refine ⟨?_, ?_, ?_, ?_⟩
    · simp only [cell_to_clip]
      push_cast
      try ring
    · simp only [cell_to_clip]
      push_cast
      field_simp
      try ring
      try norm_num
    · simp only [cell_to_clip]
      push_cast
      try ring
    · simp only [cell_to_clip]
      push_cast
      field_simp
      try ring
      try norm_num
  · intro row col vert hv
    simp only [cell_quad, List.mem_cons, List.not_mem_nil, or_false] at hv
    rcases hv with rfl | rfl | rfl | rfl | rfl | rfl <;> exact ⟨rfl, rfl, rfl⟩
  · rfl
  · intro row hrow hmod
    simp [default_color, hrow, hmod]
  · intro row hrow hmod
    simp [default_color, hrow, hmod]

/-- Witness for C4 on the 2 by 2 grid. -/
theorem init_grid_geometry_and_colors_witness :
    0 < 2 ∧ 0 < 2 ∧
    ((init_grid_verts 2 2).length = 2 * 2 * 6 ∧
    (∀ row col v : ℕ, row < 2 → col < 2 → v < 6 →
      (init_grid_verts 2 2)[(row * 2 + col) * 6 + v]? =
        (cell_quad (row : ℤ) (col : ℤ) ((2 : ℕ) : ℤ) ((2 : ℕ) : ℤ))[v]?) ∧
    (∀ row col : ℤ,
      cell_to_clip row col ((2 : ℕ) : ℤ) ((2 : ℕ) : ℤ) =
        { x1 := -1 + (col : ℚ) * (2 / (((2 : ℕ) : ℤ) : ℚ)) + pad
          y1 := 1 - ((row : ℚ) + 1) * (2 / (((2 : ℕ) : ℤ) : ℚ)) + pad
          x2 := -1 + ((col : ℚ) + 1) * (2 / (((2 : ℕ) : ℤ) : ℚ)) - pad
          y2 := 1 - (row : ℚ) * (2 / (((2 : ℕ) : ℤ) : ℚ)) - pad }) ∧
    (∀ row col : ℤ,
      (cell_to_clip row (col + 1) ((2 : ℕ) : ℤ) ((2 : ℕ) : ℤ)).x1 -
        (cell_to_clip row col ((2 : ℕ) : ℤ) ((2 : ℕ) : ℤ)).x2 = 2 * pad ∧
      (cell_to_clip row col ((2 : ℕ) : ℤ) ((2 : ℕ) : ℤ)).y1 -
        (cell_to_clip (row + 1) col ((2 : ℕ) : ℤ) ((2 : ℕ) : ℤ)).y2 = 2 * pad) ∧
    (∀ row col : ℤ,
      (cell_to_clip row 0 ((2 : ℕ) : ℤ) ((2 : ℕ) : ℤ)).x1 = -1 + pad ∧
      (cell_to_clip row (((2 : ℕ) : ℤ) - 1) ((2 : ℕ) : ℤ) ((2 : ℕ) : ℤ)).x2 = 1 - pad ∧
      (cell_to_clip 0 col ((2 : ℕ) : ℤ) ((2 : ℕ) : ℤ)).y2 = 1 - pad ∧
      (cell_to_clip (((2 : ℕ) : ℤ) - 1) col ((2 : ℕ) : ℤ) ((2 : ℕ) : ℤ)).y1 = -1 + pad) ∧
    (∀ row col : ℤ, ∀ vert ∈ cell_quad row col ((2 : ℕ) : ℤ) ((2 : ℕ) : ℤ),
      vert.r = (default_color row).1 ∧ vert.g = (default_color row).2.1 ∧
      vert.b = (default_color row).2.2) ∧
    default_color 0 = (0, 1/2, 7/10) ∧
    (∀ row : ℤ, row ≠ 0 → row % 2 = 0 → default_color row = (3/20, 3/20, 1/4)) ∧
    (∀ row : ℤ, row ≠ 0 → row % 2 ≠ 0 → default_color row = (1/5, 1/5, 8/25))) :=
  ⟨by decide, by decide, init_grid_geometry_and_colors 2 2 (by decide) (by decide)⟩

-- ============================================================
-- C6
-- ============================================================

/-- C6: inside the 256 by 64 table capacity set_cell_text stores the first
    31 bytes of the input (so 32-or-longer inputs are cut to 31 and shorter
    inputs are stored verbatim) and changes no other cell; outside the
    capacity the call leaves the whole table untouched; and the per-cell
    layout of an empty stored string emits zero glyphs. -/
theorem set_cell_text_capacity_and_truncation (tbl : ℤ → ℤ → List ℕ) (row col : ℤ)
    (text : List ℕ) :
    (0 ≤ row → row < MAX_ROWS → 0 ≤ col → col < MAX_COLS →
      set_cell_text tbl row col text row col = text.take 31 ∧
      (text.length ≤ 31 → set_cell_text tbl row col text row col = text) ∧
      (32 ≤ text.length → (set_cell_text tbl row col text row col).length = 31) ∧
      (∀ r c : ℤ, ¬ (r = row ∧ c = col) → set_cell_text tbl row col text r c = tbl r c)) ∧
    ((row < 0 ∨ MAX_ROWS ≤ row ∨ col < 0 ∨ MAX_COLS ≤ col) →
      set_cell_text tbl row col text = tbl) ∧
    (∀ rows cols r c : ℤ, cell_layout rows cols r c [] = []) := by
  have hMR : MAX_ROWS = 256 := rfl
  have hMC : MAX_COLS = 64 := rfl
  refine ⟨?_, ?_, ?_⟩
  · intro hr1 hr2 hc1 hc2
    have hguard : ¬ (row < 0 ∨ MAX_ROWS ≤ row ∨ col < 0 ∨ MAX_COLS ≤ col) := by omega
    rw [set_cell_text, if_neg hguard]
    refine ⟨?_, ?_, ?_, ?_⟩
    · simp [MAX_CELL_LEN]
    · intro hlen
      simp [MAX_CELL_LEN, List.take_of_length_le hlen]
    · intro hlen
      show (if row = row ∧ col = col then text.take (MAX_CELL_LEN - 1)
            else tbl row col).length = 31
      rw [if_pos (show row = row ∧ col = col from ⟨rfl, rfl⟩), List.length_take]
      rw [show MAX_CELL_LEN - 1 = 31 from rfl]
      omega
    · intro r c hrc
      simp [hrc]
  · intro hguard
    rw [set_cell_text, if_pos hguard]
  · intro rows cols r c
    rfl

/-- Witness for C6 with a 33-byte string at cell (1, 2) and an
    out-of-capacity call at row 300. -/
theorem set_cell_text_capacity_and_truncation_witness :
    (0 ≤ (1 : ℤ)) ∧ (1 : ℤ) < MAX_ROWS ∧ (0 ≤ (2 : ℤ)) ∧ (2 : ℤ) < MAX_COLS ∧
    ((300 : ℤ) < 0 ∨ MAX_ROWS ≤ 300 ∨ (0 : ℤ) < 0 ∨ MAX_COLS ≤ 0) ∧
    (set_cell_text (fun _ _ => []) 1 2 (List.replicate 33 48) 1 2 =
      (List.replicate 33 48).take 31 ∧
      ((List.replicate 33 48).length ≤ 31 →
        set_cell_text (fun _ _ => []) 1 2 (List.replicate 33 48) 1 2 = List.replicate 33 48) ∧
      (32 ≤ (List.replicate 33 48).length →
        (set_cell_text (fun _ _ => []) 1 2 (List.replicate 33 48) 1 2).length = 31) ∧
      (∀ r c : ℤ, ¬ (r = 1 ∧ c = 2) →
        set_cell_text (fun _ _ => []) 1 2 (List.replicate 33 48) r c = (fun _ _ => ([] : List ℕ)) r c)) ∧
    set_cell_text (fun _ _ => []) 300 0 (List.replicate 33 48) = (fun _ _ => ([] : List ℕ)) ∧
    (∀ rows cols r c : ℤ, cell_layout rows cols r c [] = []) := by
  have h := set_cell_text_capacity_and_truncation (fun _ _ => []) 1 2 (List.replicate 33 48)
  have h2 := set_cell_text_capacity_and_truncation (fun _ _ => []) 300 0 (List.replicate 33 48)
  refine ⟨by decide, by decide, by decide, by decide, by decide,
    h.1 (by decide) (by decide) (by decide) (by decide),
    h2.2.1 (by decide), h.2.2⟩

-- ============================================================
-- C7
-- ============================================================

/-- C7: a character outside the supported set (digits, period, plus,
    minus, space, letters with small letters mapped to the same glyphs)
    is exactly a character with negative char_to_index; in the layout loop
    such a character emits no glyph quad and only advances the pen by one
    advance width; and the cursor math counts characters purely by string
    length, so two cell texts of equal length (supported or not) place the
    cursor identically. -/
theorem unsupported_chars_are_advance_only (c : ℕ) :
    (char_to_index c < 0 ↔ ¬ is_supported c) ∧
    (∀ x2 char_w char_h cy : ℚ, ∀ rest : List ℕ, ∀ cx : ℚ,
      char_to_index c < 0 →
      layout_loop x2 char_w char_h cy (c :: rest) cx =
        layout_loop x2 char_w char_h cy rest (cx + char_w * (85/100))) ∧
    (∀ hasProg : Bool, ∀ rows cols : ℤ, ∀ tbl1 tbl2 : ℤ → ℤ → List ℕ,
      ∀ cur : CursorState,
      (tbl1 cur.row cur.col).length = (tbl2 cur.row cur.col).length →
      render_cursor hasProg rows cols tbl1 cur = render_cursor hasProg rows cols tbl2 cur) := by
  refine ⟨?_, ?_, ?_⟩
  · simp only [char_to_index, is_supported]
    split_ifs <;> omega
  · intro x2 char_w char_h cy rest cx h
    simp only [layout_loop]
    rw [if_pos h]
  · intro hasProg rows cols tbl1 tbl2 cur hlen
    simp only [render_cursor]
    rw [hlen]

/-- Witness for C7 at the unsupported byte 64 (the commercial at sign). -/
theorem unsupported_chars_are_advance_only_witness :
    ((char_to_index 64 < 0 ↔ ¬ is_supported 64) ∧
    (∀ x2 char_w char_h cy : ℚ, ∀ rest : List ℕ, ∀ cx : ℚ,
      char_to_index 64 < 0 →
      layout_loop x2 char_w char_h cy (64 :: rest) cx =
        layout_loop x2 char_w char_h cy rest (cx + char_w * (85/100))) ∧
    (∀ hasProg : Bool, ∀ rows cols : ℤ, ∀ tbl1 tbl2 : ℤ → ℤ → List ℕ,
      ∀ cur : CursorState,
      (tbl1 cur.row cur.col).length = (tbl2 cur.row cur.col).length →
      render_cursor hasProg rows cols tbl1 cur = render_cursor hasProg rows cols tbl2 cur)) ∧
    char_to_index 64 < 0 :=
  ⟨unsupported_chars_are_advance_only 64, by decide⟩


-- ============================================================
-- C8
-- ============================================================

/-- C8: with the cursor visible on a nonnegative cell whose stored text
    has at most 31 bytes (the table capacity), render_cursor places the
    bar by the same layout the text batcher uses for that text: glyph
    height 65% of the cell height, glyph width 5/7 of the height, advance
    85% of the width, string of len characters centered in the cell.  The
    bar starts at start_x + charPos*advance, is 15% of a glyph wide and
    one glyph high; at charPos = len it sits at start_x + len*advance, the
    trailing edge of the advance run (total text width), right after the
    last glyph; and when the text begins with a supported character the
    text batcher emits its first glyph at the same origin with the same
    glyph box. -/
theorem render_cursor_matches_text_layout (rows cols : ℤ)
    (tbl : ℤ → ℤ → List ℕ) (cur : CursorState)
    (hvis : cur.visible = true) (hrow : 0 ≤ cur.row) (hcol : 0 ≤ cur.col)
    (hlen : (tbl cur.row cur.col).length ≤ 31) :
    (let rect := cell_to_clip cur.row cur.col rows cols
     let ch := rect.y2 - rect.y1
     let char_h := ch * (65/100)
     let char_w := char_h * (5/7)
     let adv := char_w * (85/100)
     let str := tbl cur.row cur.col
     let len : ℤ := str.length
     let start_x := rect.x1 + ((rect.x2 - rect.x1) - (len : ℚ) * adv) * (1/2)
     let start_y := rect.y1 + (ch - char_h) * (1/2)
     render_cursor true rows cols tbl cur =
        some { x := start_x + (cur.pos : ℚ) * adv
               y := start_y
               w := char_w * (15/100)
               h := char_h } ∧
     (cur.pos = len →
        render_cursor true rows cols tbl cur =
          some { x := start_x + (len : ℚ) * char_w * (85/100)
                 y := start_y
                 w := char_w * (15/100)
                 h := char_h }) ∧
     (∀ c : ℕ, ∀ rest : List ℕ, str = c :: rest → 0 ≤ char_to_index c →
        (cell_layout rows cols cur.row cur.col str).head? =
          some ⟨start_x, start_y, char_w, char_h, char_to_index c⟩)) := by
  have hne : ¬ (cur.visible = false ∨ cur.row < 0 ∨ cur.col < 0) := by
    rw [hvis]
    simp only [Bool.true_eq_false, false_or, not_or, not_lt]
    exact ⟨hrow, hcol⟩
  have hprog : ¬ ((true : Bool) = false) := by decide
  refine ⟨?_, ?_, ?_⟩
  · rw [render_cursor, if_neg hne, if_neg hprog]
    simp only [Option.some.injEq]
    congr 1 <;> ring
  · intro hpos
    rw [render_cursor, if_neg hne, if_neg hprog]
    simp only [Option.some.injEq]
    rw [hpos]
    congr 1 <;> ring
  · intro c rest hstr hsupp
    have hmin : min (tbl cur.row cur.col).length MAX_CELL_LEN =
        (tbl cur.row cur.col).length := by
      rw [show MAX_CELL_LEN = 32 from rfl]
      omega
    simp only [cell_layout]
    rw [if_neg (by rw [hstr]; simp)]
    rw [hmin, List.take_length]
    rw [hstr]
    simp only [layout_loop]
    rw [if_neg (by omega)]
    rw [List.head?_cons]
    simp only [Option.some.injEq]
    congr 1 <;> (push_cast; try ring)



/-- Witness for C8 on the scenario setCursor(2,3,4,true) over the text
    1000 in an 8 by 5 grid: charPos equals the string length. -/
theorem render_cursor_matches_text_layout_witness :
    demoCursor.visible = true ∧ 0 ≤ demoCursor.row ∧ 0 ≤ demoCursor.col ∧
    (demoTable demoCursor.row demoCursor.col).length ≤ 31 ∧
    (let rect := cell_to_clip demoCursor.row demoCursor.col 8 5
     let ch := rect.y2 - rect.y1
     let char_h := ch * (65/100)
     let char_w := char_h * (5/7)
     let adv := char_w * (85/100)
     let str := demoTable demoCursor.row demoCursor.col
     let len : ℤ := str.length
     let start_x := rect.x1 + ((rect.x2 - rect.x1) - (len : ℚ) * adv) * (1/2)
     let start_y := rect.y1 + (ch - char_h) * (1/2)
     render_cursor true 8 5 demoTable demoCursor =
        some { x := start_x + (demoCursor.pos : ℚ) * adv
               y := start_y
               w := char_w * (15/100)
               h := char_h } ∧
     (demoCursor.pos = len →
        render_cursor true 8 5 demoTable demoCursor =
          some { x := start_x + (len : ℚ) * char_w * (85/100)
                 y := start_y
                 w := char_w * (15/100)
                 h := char_h }) ∧
     (∀ c : ℕ, ∀ rest : List ℕ, str = c :: rest → 0 ≤ char_to_index c →
        (cell_layout 8 5 demoCursor.row demoCursor.col str).head? =
          some ⟨start_x, start_y, char_w, char_h, char_to_index c⟩)) :=
  ⟨rfl, by decide, by decide, by decide,
    render_cursor_matches_text_layout 8 5 demoTable demoCursor rfl
      (by decide) (by decide) (by decide)⟩
